import Mathlib

/-!
Shallow embedding of the `rng-token-stylus` contract (`src/lib.rs`), the
`LotteryToken` Stylus contract: an ERC-20 token whose mint amount is derived
from Supra-VRF randomness delivered through the `mint_random_amount` callback.

Modelling conventions:
* `Address` and `U256` values are `Nat` (the zero address is `0`; U256
  arithmetic is `Nat` arithmetic with explicit `% 2 ^ 256` or explicit bound
  checks wherever overflow matters in the source).
* Storage is a record; a call returns `CallResult`, whose non-`ok` outcomes
  (`err` for a returned structured `Error`, `trap` for a Rust panic such as an
  out-of-bounds index or a division by zero) revert every storage write, as
  the Stylus execution model guarantees (spec section 5).
* The external Supra router call made by `_request_randomness` is modelled by
  an explicit outcome parameter `oracle : Except Unit Nat` (`.ok nonce` when
  the router allocates a nonce, `.error ()` when the external call fails).
* `10_u16.pow(18)` in the source is `u16` arithmetic: with release-profile
  wrapping semantics, square-and-multiply with wrapping `u16` multiplication
  computes the power in the ring `ZMod (2 ^ 16)`, i.e. `10 ^ 18 % 2 ^ 16`
  (with debug overflow checks the `pow` call panics at this point instead;
  either build reverts, see `mint_range_u16`).
-/

namespace RngTokenStylus

/-- The contract's error enum (`enum Error` in `src/lib.rs`), carrying the
payload fields of the corresponding solidity errors. -/
inductive Error where
  | InsufficientBalance (sender balance needed : Nat)
  | InvalidSender (sender : Nat)
  | InvalidReceiver (receiver : Nat)
  | InsufficientAllowance (spender allowance needed : Nat)
  | InvalidSpender (spender : Nat)
  | InvalidApprover (approver : Nat)
  | RandomnessRequestFailed
  | OnlySupraRouter

/-- The custom events of `src/lib.rs` (`MintRequested`, `Minted`).  The
external ledger's `Transfer` event is not modelled: no claim mentions it. -/
inductive Signal where
  | MintRequested (nonce toAddr : Nat)
  | Minted (nonce toAddr amount : Nat)

/-- Outcome of one external call into the contract: `ok` commits the new
state and the emitted signals, `err` is a returned structured `Error`
(which reverts storage), `trap` is a Rust panic (out-of-bounds index,
division by zero, arithmetic-overflow check), which also reverts. -/
inductive CallResult (α : Type) where
  | ok (a : α)
  | err (e : Error)
  | trap

/-- Modelled from the spec: the external ledger component (spec sections 1, 6;
`openzeppelin_stylus::token::erc20::Erc20`, not part of this repository's
`src/`): balances, allowances and the total supply. -/
structure Erc20 where
  balances : Nat → Nat
  allowances : Nat → Nat → Nat
  totalSupply : Nat

/-- The `LotteryToken` storage struct of `src/lib.rs` (metadata strings are
omitted: no claim mentions them).  `mint_address` is a `StorageMap` whose
absent entries read as the zero address `0`. -/
structure LotteryToken where
  erc20 : Erc20
  subscription_manager : Nat
  supra_router : Nat
  mint_address : Nat → Nat

/-- The value `U256::MAX`. -/
def U256MAX : Nat := 2 ^ 256 - 1

/-- Modelled from the spec: the external ledger's internal `_update` (balance
and total-supply bookkeeping; mint when `src = 0`, burn when `dst = 0`).
The mint path's total-supply `checked_add(..).expect(..)` panics on overflow
past `U256::MAX`. -/
def erc20Update (e : Erc20) (src dst value : Nat) : CallResult Erc20 :=
  if src = 0 then
    if U256MAX < e.totalSupply + value then .trap
    else
      let e1 : Erc20 := { e with totalSupply := e.totalSupply + value }
      if dst = 0 then .ok { e1 with totalSupply := e1.totalSupply - value }
      else .ok { e1 with balances := fun a => if a = dst then e1.balances a + value else e1.balances a }
  else
    if e.balances src < value then .err (.InsufficientBalance src (e.balances src) value)
    else
      let e1 : Erc20 := { e with balances := fun a => if a = src then e.balances a - value else e.balances a }
      if dst = 0 then .ok { e1 with totalSupply := e1.totalSupply - value }
      else .ok { e1 with balances := fun a => if a = dst then e1.balances a + value else e1.balances a }

/-- Modelled from the spec: the external ledger's `_mint(account, value)` —
rejects the zero receiver with `InvalidReceiver` ("assumed to fail only on
structurally invalid recipients", spec section 6), otherwise credits the
account and the total supply via `_update(0, account, value)`. -/
def erc20Mint (e : Erc20) (account value : Nat) : CallResult Erc20 :=
  if account = 0 then .err (.InvalidReceiver 0)
  else erc20Update e 0 account value

/-- Modelled from the spec: the external ledger's `_transfer` (zero-address
checks, then `_update`). -/
def erc20Transfer (e : Erc20) (src toAddr value : Nat) : CallResult Erc20 :=
  if src = 0 then .err (.InvalidSender 0)
  else if toAddr = 0 then .err (.InvalidReceiver 0)
  else erc20Update e src toAddr value

/-- Modelled from the spec: the external ledger's internal `_approve`
(zero-address checks, then the allowance write). -/
def erc20Approve (e : Erc20) (owner spender value : Nat) : CallResult Erc20 :=
  if owner = 0 then .err (.InvalidApprover 0)
  else if spender = 0 then .err (.InvalidSpender 0)
  else .ok { e with allowances := fun o s => if o = owner ∧ s = spender then value else e.allowances o s }

/-- Modelled from the spec: the external ledger's `_spend_allowance` — the
`U256::MAX` allowance is infinite; otherwise an insufficient allowance is a
structured error and a sufficient one is decremented. -/
def erc20SpendAllowance (e : Erc20) (owner spender value : Nat) : CallResult Erc20 :=
  let current := e.allowances owner spender
  if current = U256MAX then .ok e
  else if current < value then .err (.InsufficientAllowance spender current value)
  else erc20Approve e owner spender (current - value)

/-- Modelled from the spec: the external ledger's `transfer_from` (spend the
caller's allowance, then transfer). -/
def erc20TransferFrom (e : Erc20) (spender src toAddr value : Nat) : CallResult Erc20 :=
  match erc20SpendAllowance e src spender value with
  | .ok e1 => erc20Transfer e1 src toAddr value
  | .err er => .err er
  | .trap => .trap

/-- Lifts a ledger-only call to the whole contract: only the `erc20` field
can change, exactly as the source's `&mut self.erc20` borrow guarantees. -/
def liftErc20 (st : LotteryToken) (r : CallResult Erc20) :
    CallResult (LotteryToken × List Signal) :=
  match r with
  | .ok e => .ok ({ st with erc20 := e }, [])
  | .err er => .err er
  | .trap => .trap

/-- Lifts a ledger call that, on success, additionally emits one signal. -/
def liftErc20Emit (st : LotteryToken) (sig : Signal) (r : CallResult Erc20) :
    CallResult (LotteryToken × List Signal) :=
  match r with
  | .ok e => .ok ({ st with erc20 := e }, [sig])
  | .err er => .err er
  | .trap => .trap

/-- Two's-complement wrapping into `u16`. -/
def wrapU16 (n : Nat) : Nat := n % 2 ^ 16

/-- Rust `b_u16.pow(e)` under release-profile wrapping semantics: square-and-multiply
with wrapping `u16` multiplications is exponentiation in the ring
`ZMod (2 ^ 16)`, hence `b ^ e % 2 ^ 16`. -/
def powU16 (b e : Nat) : Nat := wrapU16 (b ^ e)

/-- Line `src/lib.rs:138`: `let mint_range = U256::from(1000 * 10_u16.pow(18));`.
Both factors are `u16`, so this is `u16` arithmetic; `10 ^ 18` overflows `u16`
(`10 ^ 16 = 2 ^ 16 * 5 ^ 16`, so `10 ^ 18 % 2 ^ 16 = 0`), wrapping to `0`
in a release build (in a build with overflow checks the `pow` call panics
here instead, so the call reverts in either build, see
`mint_random_amount`). -/
def mint_range_u16 : Nat := wrapU16 (1000 * powU16 10 18)

/-- Function `_request_randomness` (`src/lib.rs:155-171`): delegates to the external
Supra router (outcome parameter `oracle`); a router failure is mapped to the
structured `RandomnessRequestFailed` error. -/
def request_randomness (oracle : Except Unit Nat) : Except Error Nat :=
  match oracle with
  | .ok nonce => .ok nonce
  | .error _ => .error .RandomnessRequestFailed

/-- Entry point `mint_to` / `_mint_to` (`src/lib.rs:99-101`, `119-127`): request
randomness from the router; on success record `mint_address[nonce] = to`
(an unconditional `setter(..).set(..)`, overwriting any prior entry) and
emit `MintRequested`; on failure return the error with nothing written. -/
def mint_to (st : LotteryToken) (oracle : Except Unit Nat) (toAddr : Nat) :
    CallResult (LotteryToken × List Signal) :=
  match request_randomness oracle with
  | .error e => .err e
  | .ok nonce =>
      .ok ({ st with mint_address := fun k => if k = nonce then toAddr else st.mint_address k },
           [.MintRequested nonce toAddr])

/-- Entry point `mint_random_amount` / `_mint_random_amount` (`src/lib.rs:105-107`,
`129-153`): reject any caller other than the stored `supra_router`; read the
recorded receiver (`0` when absent); index `rng_list[0]` (a panic on an empty
list); compute `mint_range` (see `mint_range_u16` — it evaluates to `0`, so
`random_num % mint_range` is a division by zero, a panic); otherwise mint
`random_num % mint_range + 1` to the receiver and emit `Minted`. -/
def mint_random_amount (st : LotteryToken) (sender nonce : Nat) (rng_list : List Nat) :
    CallResult (LotteryToken × List Signal) :=
  if sender ≠ st.supra_router then .err .OnlySupraRouter
  else
    let receiver := st.mint_address nonce
    match rng_list with
    | [] => .trap
    | random_num :: _ =>
      if mint_range_u16 = 0 then .trap
      else
        let mint_amount := random_num % mint_range_u16 + 1
        liftErc20Emit st (.Minted nonce receiver mint_amount)
          (erc20Mint st.erc20 receiver mint_amount)

/-- Public `transfer` (`src/lib.rs:190-192`): delegates to the ledger with
the caller as source. -/
def transfer (st : LotteryToken) (sender toAddr value : Nat) :
    CallResult (LotteryToken × List Signal) :=
  liftErc20 st (erc20Transfer st.erc20 sender toAddr value)

/-- Public `approve` (`src/lib.rs:198-200`): delegates to the ledger with the
caller as owner. -/
def approve (st : LotteryToken) (sender spender value : Nat) :
    CallResult (LotteryToken × List Signal) :=
  liftErc20 st (erc20Approve st.erc20 sender spender value)

/-- Public `transfer_from` (`src/lib.rs:202-209`): delegates to the ledger
with the caller as spender. -/
def transfer_from (st : LotteryToken) (sender src toAddr value : Nat) :
    CallResult (LotteryToken × List Signal) :=
  liftErc20 st (erc20TransferFrom st.erc20 sender src toAddr value)

/-- Freshly deployed storage: every slot zeroed. -/
def freshStorage : LotteryToken :=
  { erc20 := { balances := fun _ => 0, allowances := fun _ _ => 0, totalSupply := 0 },
    subscription_manager := 0, supra_router := 0, mint_address := fun _ => 0 }

/-- Entry point `constructor` / `_init` (`src/lib.rs:90-97`, `111-117`) applied to fresh
storage: writes `subscription_manager` and `supra_router` (metadata strings
omitted). -/
def constructed (sm sr : Nat) : LotteryToken :=
  { freshStorage with subscription_manager := sm, supra_router := sr }

/-- The storage after a call: a non-`ok` outcome reverts to the pre-state. -/
def finalState (st : LotteryToken) (r : CallResult (LotteryToken × List Signal)) :
    LotteryToken :=
  match r with
  | .ok (st1, _) => st1
  | _ => st

/-- The signals a call emits: none unless it commits. -/
def emitted (r : CallResult (LotteryToken × List Signal)) : List Signal :=
  match r with
  | .ok (_, sigs) => sigs
  | _ => []

/-- Whether a call committed. -/
def isOk {α : Type} : CallResult α → Bool
  | .ok _ => true
  | _ => false

/-- Whether a call returned a structured `Error` (as opposed to committing
or panicking). -/
def isErr {α : Type} : CallResult α → Bool
  | .err _ => true
  | _ => false

/-- The range width the spec states for the derivation (spec sections 4.3,
8: `RANGE_WIDTH = 1000 × 10 ^ 18`), matching the source's own comment
"Mint between 1 and 1,000 tokens" at `src/lib.rs:137`. -/
def specRangeWidth : Nat := 1000 * 10 ^ 18

/-- The derivation the spec states: `derive(R) = R % RANGE_WIDTH + 1`. -/
def specDerive (r : Nat) : Nat := r % specRangeWidth + 1

theorem mint_range_u16_eq_zero : mint_range_u16 = 0 := by decide

/-- Shared scenario: fresh deployment with `subscription_manager = 1` and
`supra_router = 2`, followed by a successful `mint_to(recipient = 7)` whose
router call allocated nonce `42`; so `mint_address[42] = 7` is recorded. -/
def requestedState : LotteryToken :=
  finalState (constructed 1 2) (mint_to (constructed 1 2) (.ok 42) 7)

/-- C1: the claim states `mint_random_amount` derives `(R % RANGE_WIDTH) + 1`
with `RANGE_WIDTH = 1000 × 10 ^ 18` and that the amount lies in
`[1, 1000 × 10 ^ 18]`.  In the code, `1000 * 10_u16.pow(18)` is `u16`
arithmetic and `10 ^ 18` overflows `u16`: the range evaluates to `0`, not to
the spec's `10 ^ 21`, so `R % mint_range` is a division by zero and the call
panics instead of deriving any amount — shown here at `R = 0` (the claim's
own example input, which the claim says yields `1`) with the configured
router calling on the requested handle `42`. -/
theorem mint_random_amount_range_is_zero_and_traps :
    mint_range_u16 = 0 ∧
    mint_range_u16 ≠ specRangeWidth ∧
    specRangeWidth = 1000 * 10 ^ 18 ∧
    mint_random_amount requestedState 2 42 [0] = .trap := by
  refine ⟨by decide, by decide, rfl, rfl⟩

/-- C2: any caller other than the stored `supra_router` gets the
`OnlySupraRouter` error, for every nonce and every `rng_list` (the empty one
included), with the storage unchanged and no signal emitted. -/
theorem mint_random_amount_only_supra_router (st : LotteryToken) (sender nonce : Nat)
    (rng_list : List Nat) (h : sender ≠ st.supra_router) :
    mint_random_amount st sender nonce rng_list = .err .OnlySupraRouter ∧
    finalState st (mint_random_amount st sender nonce rng_list) = st ∧
    emitted (mint_random_amount st sender nonce rng_list) = [] := by
  have hr : mint_random_amount st sender nonce rng_list = .err .OnlySupraRouter := by
    unfold mint_random_amount
    simp [h]
  exact ⟨hr, by rw [hr]; rfl, by rw [hr]; rfl⟩

/-- C2 witness: caller `3` differs from the configured router `2`; the call
on nonce `0` with the empty `rng_list` errors with `OnlySupraRouter` and
leaves everything unchanged. -/
theorem mint_random_amount_only_supra_router_witness :
    mint_random_amount (constructed 1 2) 3 0 [] = .err .OnlySupraRouter ∧
    finalState (constructed 1 2) (mint_random_amount (constructed 1 2) 3 0 []) = constructed 1 2 ∧
    emitted (mint_random_amount (constructed 1 2) 3 0 []) = [] :=
  mint_random_amount_only_supra_router (constructed 1 2) 3 0 [] (by decide)

/-- C3: when the external router call fails, `mint_to` returns the
`RandomnessRequestFailed` error, writes no `mint_address` entry, changes no
state at all, and emits no signal. -/
theorem mint_to_atomic_on_oracle_failure (st : LotteryToken) (toAddr : Nat) :
    mint_to st (.error ()) toAddr = .err .RandomnessRequestFailed ∧
    finalState st (mint_to st (.error ()) toAddr) = st ∧
    emitted (mint_to st (.error ()) toAddr) = [] :=
  ⟨rfl, rfl, rfl⟩

/-- C4: the claim states a router-called `mint_random_amount(42, [12345])`
after the recorded request (`mint_address[42] = 7`) succeeds, credits
recipient `7` with `(12345 % RANGE_WIDTH) + 1`, raises the total supply by
the same amount, and emits one `Minted` signal.  The code instead panics at
`random_num % mint_range` (the range evaluated to `0` by the `u16`
overflow), so the call commits nothing: no balance change, no supply change,
no signal. -/
theorem mint_random_amount_fulfillment_traps :
    requestedState.mint_address 42 = 7 ∧
    mint_random_amount requestedState 2 42 [12345] = .trap ∧
    (finalState requestedState (mint_random_amount requestedState 2 42 [12345])).erc20.balances 7 = 0 ∧
    (finalState requestedState (mint_random_amount requestedState 2 42 [12345])).erc20.totalSupply = 0 ∧
    emitted (mint_random_amount requestedState 2 42 [12345]) = [] :=
  ⟨rfl, rfl, rfl, rfl, rfl⟩

/-- C5: the claim's premise is accurate — `mint_random_amount` never writes
`mint_address`, so the entry for handle `42` still maps to `7` after a
router-called fulfillment attempt — but its conclusion (a first call
succeeds and a second call mints again) fails: the first call already panics
on `random_num % 0`, so no fulfillment ever succeeds, and the repeated call
panics identically instead of double-minting. -/
theorem mint_random_amount_never_succeeds_so_no_double_mint :
    (finalState requestedState (mint_random_amount requestedState 2 42 [12345])).mint_address 42 = 7 ∧
    mint_random_amount requestedState 2 42 [12345] = .trap ∧
    isOk (mint_random_amount requestedState 2 42 [12345]) = false ∧
    mint_random_amount (finalState requestedState (mint_random_amount requestedState 2 42 [12345]))
      2 42 [12345] = .trap :=
  ⟨rfl, rfl, rfl, rfl⟩

/-- C6 counterexample: handle `9` was never requested (`mint_address[9]`
reads as the zero address), yet the router-called
`mint_random_amount(9, [7])` does not increase the zero address's balance as
the claim states: it panics at the division by zero, the zero address's
balance stays `0`, and the total supply stays `0`. -/
theorem mint_random_amount_unknown_handle_no_zero_mint :
    (constructed 1 2).mint_address 9 = 0 ∧
    mint_random_amount (constructed 1 2) 2 9 [7] = .trap ∧
    (finalState (constructed 1 2) (mint_random_amount (constructed 1 2) 2 9 [7])).erc20.balances 0
      = (constructed 1 2).erc20.balances 0 ∧
    (finalState (constructed 1 2) (mint_random_amount (constructed 1 2) 2 9 [7])).erc20.totalSupply
      = 0 :=
  ⟨rfl, rfl, rfl, rfl⟩

/-- C6 amended: for a handle with no recorded recipient, a router call with a
non-empty `rng_list` indeed returns no explicit "no such pending request"
error (no such error exists in the code) and resolves the recipient as the
zero/default address, but it then panics at `random_num % mint_range`
(`mint_range = 0` by the `u16` overflow) before any mint, so no balance
increases and the storage is left unchanged. -/
theorem mint_random_amount_unknown_handle_traps (st : LotteryToken) (sender nonce v : Nat)
    (rest : List Nat) (hs : sender = st.supra_router) (hn : st.mint_address nonce = 0) :
    mint_random_amount st sender nonce (v :: rest) = .trap ∧
    isErr (mint_random_amount st sender nonce (v :: rest)) = false ∧
    finalState st (mint_random_amount st sender nonce (v :: rest)) = st := by
  have hr : mint_random_amount st sender nonce (v :: rest) = .trap := by
    unfold mint_random_amount
    simp [hs, mint_range_u16_eq_zero]
  exact ⟨hr, by rw [hr]; rfl, by rw [hr]; rfl⟩

/-- C6 amended witness: the configured router `2` calls on the never-requested
handle `5` with `rng_list = [7]`; the call panics and changes nothing. -/
theorem mint_random_amount_unknown_handle_traps_witness :
    mint_random_amount (constructed 1 2) 2 5 [7] = .trap ∧
    isErr (mint_random_amount (constructed 1 2) 2 5 [7]) = false ∧
    finalState (constructed 1 2) (mint_random_amount (constructed 1 2) 2 5 [7]) = constructed 1 2 :=
  mint_random_amount_unknown_handle_traps (constructed 1 2) 2 5 7 [] rfl rfl

/-- C7 counterexample: with `mint_address[42] = 7` already recorded
(`requestedState`), a `mint_to(recipient = 3)` whose router call returns the
same handle `42` does not fail with any `DuplicateHandle` error (no such
error exists in the code): it commits, silently overwrites the entry from
`7` to `3`, and emits `MintRequested`. -/
theorem mint_to_duplicate_handle_overwrites :
    requestedState.mint_address 42 = 7 ∧
    isOk (mint_to requestedState (.ok 42) 3) = true ∧
    isErr (mint_to requestedState (.ok 42) 3) = false ∧
    (finalState requestedState (mint_to requestedState (.ok 42) 3)).mint_address 42 = 3 :=
  ⟨rfl, rfl, rfl, rfl⟩

/-- C7 amended: when the router returns a handle, `mint_to` always commits,
unconditionally (over)writes `mint_address[handle]` with the new recipient —
whatever the handle previously mapped to — and emits one `MintRequested`
signal; the code has no `DuplicateHandle` error at all. -/
theorem mint_to_put_overwrites (st : LotteryToken) (nonce toAddr : Nat) :
    isOk (mint_to st (.ok nonce) toAddr) = true ∧
    (finalState st (mint_to st (.ok nonce) toAddr)).mint_address nonce = toAddr ∧
    emitted (mint_to st (.ok nonce) toAddr) = [.MintRequested nonce toAddr] := by
  refine ⟨rfl, ?_, rfl⟩
  simp [mint_to, request_randomness, finalState]

/-- The two construction-time configuration fields survive a call. -/
def preservesConfig (st : LotteryToken) (r : CallResult (LotteryToken × List Signal)) : Prop :=
  (finalState st r).subscription_manager = st.subscription_manager ∧
  (finalState st r).supra_router = st.supra_router

theorem preservesConfig_liftErc20 (st : LotteryToken) (r : CallResult Erc20) :
    preservesConfig st (liftErc20 st r) := by
  cases r <;> exact ⟨rfl, rfl⟩

theorem preservesConfig_liftErc20Emit (st : LotteryToken) (sig : Signal) (r : CallResult Erc20) :
    preservesConfig st (liftErc20Emit st sig r) := by
  cases r <;> exact ⟨rfl, rfl⟩

theorem preservesConfig_mint_to (st : LotteryToken) (oracle : Except Unit Nat) (toAddr : Nat) :
    preservesConfig st (mint_to st oracle toAddr) := by
  cases oracle <;> exact ⟨rfl, rfl⟩

theorem preservesConfig_mint_random_amount (st : LotteryToken) (sender nonce : Nat)
    (rng_list : List Nat) : preservesConfig st (mint_random_amount st sender nonce rng_list) := by
  unfold mint_random_amount
  split
  · exact ⟨rfl, rfl⟩
  · cases rng_list with
    | nil => exact ⟨rfl, rfl⟩
    | cons v rest =>
        simp only
        split
        · exact ⟨rfl, rfl⟩
        · exact preservesConfig_liftErc20Emit st _ _

/-- C8: `subscription_manager` and `supra_router` are written only by the
constructor: each non-constructor mutating entry point — `mint_to` (either
router outcome), `mint_random_amount`, `transfer`, `approve`,
`transfer_from` — leaves both fields unchanged for every input and every
outcome (the read-only entry points `total_supply`, `balance_of`,
`allowance`, `name`, `symbol`, `decimals`, `supports_interface` take `&self`
in the source and cannot write at all). -/
theorem config_written_only_by_constructor (st : LotteryToken) (oracle : Except Unit Nat)
    (a b c d nonce : Nat) (rng_list : List Nat) :
    preservesConfig st (mint_to st oracle a) ∧
    preservesConfig st (mint_random_amount st a nonce rng_list) ∧
    preservesConfig st (transfer st a b c) ∧
    preservesConfig st (approve st a b c) ∧
    preservesConfig st (transfer_from st a b c d) :=
  ⟨preservesConfig_mint_to st oracle a,
   preservesConfig_mint_random_amount st a nonce rng_list,
   preservesConfig_liftErc20 st _,
   preservesConfig_liftErc20 st _,
   preservesConfig_liftErc20 st _⟩

/-- C9: when called by the configured router, `mint_random_amount` consults
only index `0` of `rng_list` — two lists sharing a head give identical
results, hence identical state changes and signals — and the length is not
validated: with the empty list the call panics on the unchecked `rng_list[0]`
rather than returning a structured error. -/
theorem mint_random_amount_consults_only_head (st : LotteryToken) (sender nonce v : Nat)
    (xs ys : List Nat) (h : sender = st.supra_router) :
    mint_random_amount st sender nonce (v :: xs) = mint_random_amount st sender nonce (v :: ys) ∧
    mint_random_amount st sender nonce [] = .trap ∧
    isErr (mint_random_amount st sender nonce []) = false := by
  refine ⟨rfl, ?_, ?_⟩ <;> simp [mint_random_amount, h, isErr]

/-- C9 witness: with the configured router `2` calling, the lists `[5, 1]`
and `[5, 99, 100]` agree at index `0` and give the same result, and the
empty list panics without a structured error. -/
theorem mint_random_amount_consults_only_head_witness :
    mint_random_amount (constructed 1 2) 2 0 [5, 1] = mint_random_amount (constructed 1 2) 2 0 [5, 99, 100] ∧
    mint_random_amount (constructed 1 2) 2 0 [] = .trap ∧
    isErr (mint_random_amount (constructed 1 2) 2 0 []) = false :=
  mint_random_amount_consults_only_head (constructed 1 2) 2 0 5 [1] [99, 100] rfl

/-- C10: the claim states a router call on an unrecorded handle (recipient
resolves to the zero address) returns the ledger's `InvalidReceiver` error.
The code panics at `random_num % mint_range` (`mint_range = 0` by the `u16`
overflow) before the ledger's zero-receiver check is ever reached, so the
outcome is a panic, not a structured error — the storage is indeed left
unchanged, but by revert rather than by an error return. -/
theorem mint_random_amount_unknown_handle_not_invalid_receiver :
    (constructed 1 2).mint_address 11 = 0 ∧
    mint_random_amount (constructed 1 2) 2 11 [13] = .trap ∧
    isErr (mint_random_amount (constructed 1 2) 2 11 [13]) = false ∧
    finalState (constructed 1 2) (mint_random_amount (constructed 1 2) 2 11 [13]) = constructed 1 2 :=
  ⟨rfl, rfl, rfl, rfl⟩

end RngTokenStylus
